import Mathlib

/-!
# Verification of the FlexiCoach transaction-analytics pipeline

Shallow embedding of the core pipeline of the repository
(`backend/core/data_cleaning.py`, `backend/core/spending_classifier.py`,
`backend/core/budget_planner.py`, `backend/core/advanced_features.py`,
`backend/core/dynamic_features.py`, `backendend/utils/helpers.py`).

Modelling conventions:
* machine floats are modelled as exact rationals `ℚ`;
* `round(x, 2)` (Python round-half-to-even) is modelled by `round2`;
* the floating standard deviation (`pandas .std()`, sample std with
  `ddof = 1`) is modelled as `Real.sqrt` of the rational sample variance,
  so the two scores that consume a coefficient of variation are
  real-valued;
* a pandas `DataFrame` cell is a `Cell` (missing / numeric / string);
  `pd.to_datetime(…, errors='coerce')` is an external library routine,
  so date parsing is an explicit parameter `dp : Cell → Option ℤ`
  (dates are day numbers, days since 1970-01-01, a Thursday);
* fallible operations return `Except`.
-/

/-! ## Generic list and string utilities -/

/-- Test `listStarts pat l` : `pat` is an initial segment of `l`. -/
def listStarts : List Char → List Char → Bool
  | [], _ => true
  | _ :: _, [] => false
  | p :: ps, c :: cs => p == c && listStarts ps cs

/-- Test `hasSub pat l` : `pat` occurs as a contiguous sublist of `l`
(Python `pat in l` on strings). -/
def hasSub : List Char → List Char → Bool
  | pat, [] => pat.isEmpty
  | pat, c :: cs => listStarts pat (c :: cs) || hasSub pat cs

/-- Substring test, `needle in hay` in Python. -/
def strHasSub (needle hay : String) : Bool :=
  hasSub needle.toList hay.toList

/-- Python `str.lower()` (character-wise; `String.toLower` of core, stated
over the character list so that terms reduce). -/
def strLower (s : String) : String := String.mk (s.toList.map Char.toLower)

/-- Python `str.strip()` (drop leading and trailing whitespace). -/
def strTrim (s : String) : String :=
  String.mk (((s.toList.dropWhile Char.isWhitespace).reverse.dropWhile
    Char.isWhitespace).reverse)

/-- Insert a rational into an ascending-sorted list (stable). -/
def insertAscQ (x : ℚ) : List ℚ → List ℚ
  | [] => [x]
  | y :: ys => if y ≤ x then y :: insertAscQ x ys else x :: y :: ys

/-- Ascending insertion sort on rationals (used for the pandas median). -/
def sortAscQ : List ℚ → List ℚ
  | [] => []
  | x :: xs => insertAscQ x (sortAscQ xs)

/-- Round-half-to-even to an integer (Python `round` on an exact value). -/
def rhe (q : ℚ) : ℤ :=
  let f := ⌊q⌋
  let r := q - (f : ℚ)
  if r < 1/2 then f
  else if 1/2 < r then f + 1
  else if f % 2 = 0 then f else f + 1

/-- Python `round(x, 2)` on an exact rational value. -/
def round2 (q : ℚ) : ℚ := (rhe (q * 100) : ℚ) / 100

/-! ## DataFrame cells and the raw tabular input -/

/-- One cell of the uploaded table: missing (`NaN`), numeric, or string. -/
inductive Cell where
  | na : Cell
  | num (q : ℚ) : Cell
  | str (s : String) : Cell
deriving DecidableEq, Repr

/-- Python `pd.isna` on a cell. -/
def Cell.isNa : Cell → Bool
  | .na => true
  | _ => false

/-- Python `cell != 0` (a missing or string cell compares unequal to 0). -/
def cellNe0 : Cell → Bool
  | .na => true
  | .num q => q ≠ 0
  | .str _ => true

/-- Pandas `.fillna('').astype(str)` applied to a description cell. -/
def descOf : Cell → String
  | .na => ""
  | .str s => s
  | .num q => toString q

/-- The raw uploaded table: named columns and rows of cells
(a short row reads as missing cells on the right). -/
structure RawDF where
  cols : List String
  rows : List (List Cell)
deriving DecidableEq, Repr

/-- Pandas `df.empty`: either axis has length zero. -/
def dfEmpty (df : RawDF) : Bool :=
  df.rows.isEmpty || df.cols.isEmpty

/-- Cell of a row at a column index (missing when out of range). -/
def cellAt (r : List Cell) (i : ℕ) : Cell := r.getD i .na

/-! ## `utils/helpers.py` -/

/-- Character class `[a-z0-9]` test used by `normalize_column_names`. -/
def isLowerAlnum (c : Char) : Bool :=
  ('a' ≤ c && c ≤ 'z') || ('0' ≤ c && c ≤ '9')

/-- Collapse consecutive underscores (the `+` of `re.sub(r'[^a-z0-9]+', '_', ·)`). -/
def collapseU : List Char → List Char
  | [] => []
  | [c] => [c]
  | a :: b :: rest =>
    if a == '_' && b == '_' then collapseU (b :: rest)
    else a :: collapseU (b :: rest)

/-- Python `.strip('_')`. -/
def stripUnderscore (cs : List Char) : List Char :=
  ((cs.dropWhile (· == '_')).reverse.dropWhile (· == '_')).reverse

/-- Source `normalize_column_names` applied to one column name:
`re.sub(r'[^a-z0-9]+', '_', col.lower().strip()).strip('_')`. -/
def normalizeName (s : String) : String :=
  String.mk (stripUnderscore (collapseU
    ((strTrim (strLower s)).toList.map (fun c => if isLowerAlnum c then c else '_'))))

/-- Source `find_matching_column`: first alias present among the (lower-cased)
column names; returns the column's index. -/
def findColIdx (cols : List String) (aliases : List String) : Option ℕ :=
  aliases.findSome? (fun a => (cols.map strLower).findIdx? (fun c => c == strLower a))

/-- Digit run to a natural number (`none` on an empty or non-digit run). -/
def digitsVal (cs : List Char) : Option ℕ :=
  if cs.isEmpty then none
  else if cs.all Char.isDigit then
    some (cs.foldl (fun n c => 10 * n + (c.toNat - '0'.toNat)) 0)
  else none

/-- Plain decimal notation accepted by Python `float()`:
optional sign, then `I`, `I.F`, `.F` or `I.` with decimal digits.
(`float()` also accepts exponent/inf/nan forms; the cleaning pipeline
only ever meets plain decimals, which is the subset modelled here.) -/
def parseDecimal (s : String) : Option ℚ :=
  let cs := s.toList
  let signed : ℤ × List Char :=
    match cs with
    | '-' :: t => (-1, t)
    | '+' :: t => (1, t)
    | _ => (1, cs)
  let sgn := signed.1
  let body := signed.2
  match body.splitOn '.' with
  | [intPart] =>
    (digitsVal intPart).map (fun n => (sgn * n : ℤ))
  | [intPart, fracPart] =>
    if intPart.isEmpty && fracPart.isEmpty then none
    else if (intPart.isEmpty || (intPart.all Char.isDigit)) &&
            (fracPart.isEmpty || (fracPart.all Char.isDigit)) then
      let ip : ℕ := (digitsVal intPart).getD 0
      let fp : ℕ := (digitsVal fracPart).getD 0
      some ((sgn : ℚ) * ((ip : ℚ) + (fp : ℚ) / ((10 : ℚ) ^ fracPart.length)))
    else none
  | _ => none

/-- Characters removed by `re.sub(r'[₹$,\s]', '', ·)` in `parse_amount`. -/
def isStrippedChar (c : Char) : Bool :=
  c == '₹' || c == '$' || c == ',' || c.isWhitespace

/-- Source `parse_amount` from `utils/helpers.py`: missing → invalid; numbers pass
through; strings are stripped of currency symbols/commas/whitespace, a
parenthesized value is read as negative, then parsed as a decimal. -/
def parse_amount : Cell → Option ℚ
  | .na => none
  | .num q => some q
  | .str s =>
    let cleaned := ((strTrim s).toList.filter (fun c => !isStrippedChar c))
    let cleaned :=
      match cleaned with
      | '(' :: rest =>
        if rest.getLast? = some ')' then '-' :: rest.dropLast else '(' :: rest
      | other => other
    parseDecimal (String.mk cleaned)

/-- Source `compute_week_start`: the Monday of the week of day `z`
(day 0 = 1970-01-01 is a Thursday, so `(z+3) mod 7` is the Monday-based
weekday). -/
def weekStart (z : ℤ) : ℤ := z - (z + 3).emod 7

/-! ## `core/spending_classifier.py` -/

/-- Python `any(word in desc for word in kws)`. -/
def kwAny (d : String) (kws : List String) : Bool :=
  kws.any (fun k => strHasSub k d)

/-- Source `infer_category` from `core/spending_classifier.py`: ordered keyword
rule table mapping (description, is_expense) to (category, need_vs_want). -/
def infer_category (description : String) (is_expense : Bool) : String × String :=
  let d := strLower description
  if !is_expense then ("income", "income")
  else if kwAny d ["rent", "lease", "emi", "loan", "mortgage", "housing"] then
    ("rent", "need")
  else if kwAny d ["grocery", "supermarket", "kirana", "vegetable", "fruit",
      "dmart", "reliance fresh", "big bazaar"] then
    ("food", "need")
  else if kwAny d ["zomato", "swiggy", "restaurant", "cafe", "coffee", "pizza",
      "burger", "domino", "mcdonald", "kfc", "food delivery"] then
    ("food", "want")
  else if kwAny d ["uber", "ola", "bus", "train", "metro", "fuel", "petrol",
      "diesel", "gas", "rapido", "auto"] then
    ("transport", "need")
  else if kwAny d ["electricity", "water", "wifi", "internet", "phone", "mobile",
      "recharge", "gas", "cylinder", "utility", "bill payment"] then
    ("bills", "need")
  else if kwAny d ["medical", "hospital", "doctor", "pharmacy", "medicine",
      "health", "insurance", "apollo", "medicare"] then
    ("health", "need")
  else if kwAny d ["netflix", "spotify", "amazon prime", "hotstar", "movie",
      "cinema", "theatre", "pvr", "inox", "gaming", "game"] then
    ("entertainment", "want")
  else if kwAny d ["amazon", "flipkart", "myntra", "ajio", "shopping", "mall",
      "store", "fashion", "clothing", "shoes"] then
    ("shopping", "want")
  else if kwAny d ["education", "school", "college", "university", "course",
      "tuition", "book", "study"] then
    ("education", "need")
  else ("other", "want")

/-! ## `core/data_cleaning.py` -/

/-- A cleaned transaction (output schema of the Normalizer). -/
structure Tx where
  date : ℤ
  description : String
  amount : ℚ
  is_expense : Bool
deriving DecidableEq, Repr

/-- Stable ascending-by-date insertion (`df.sort_values('date')`). -/
def insertTx (x : Tx) : List Tx → List Tx
  | [] => [x]
  | y :: ys => if y.date ≤ x.date then y :: insertTx x ys else x :: y :: ys

/-- Sort transactions ascending by date. -/
def sortTx : List Tx → List Tx
  | [] => []
  | x :: xs => insertTx x (sortTx xs)

/-- Failure modes of the Normalizer (all `ValueError` in the source;
split by raise site). -/
inductive CErr where
  | emptyInput : CErr
  | noDateCol : CErr
  | noDescCol : CErr
  | noAmountCol : CErr
  | noValidRows : CErr
deriving DecidableEq, Repr

instance {e a : Type} [DecidableEq e] [DecidableEq a] : DecidableEq (Except e a) :=
  fun x y =>
  match x, y with
  | .error u, .error v =>
    if h : u = v then isTrue (congrArg Except.error h)
    else isFalse (fun he => h (Except.error.inj he))
  | .ok u, .ok v =>
    if h : u = v then isTrue (congrArg Except.ok h)
    else isFalse (fun he => h (Except.ok.inj he))
  | .error _, .ok _ => isFalse (fun he => Except.noConfusion he)
  | .ok _, .error _ => isFalse (fun he => Except.noConfusion he)

/-- The spec's error taxonomy (§7). -/
inductive EKind where
  | schemaErr : EKind
  | emptyDataErr : EKind
deriving DecidableEq, Repr

/-- Classify a Normalizer failure into the spec taxonomy:
unresolvable required column → `SchemaError`; empty input or zero valid
rows → `EmptyDatasetError`. -/
def errKind : CErr → EKind
  | .emptyInput => .emptyDataErr
  | .noDateCol => .schemaErr
  | .noDescCol => .schemaErr
  | .noAmountCol => .schemaErr
  | .noValidRows => .emptyDataErr

/-- Normalized column names of the raw table. -/
def normCols (df : RawDF) : List String := df.cols.map normalizeName

/-- Resolved date column index. -/
def dateIdx (df : RawDF) : Option ℕ :=
  findColIdx (normCols df) ["date", "transaction_date", "txn_date", "trans_date",
    "posting_date", "value_date", "timestamp"]

/-- Resolved description column index. -/
def descIdx (df : RawDF) : Option ℕ :=
  findColIdx (normCols df) ["description", "narration", "particulars", "details",
    "transaction_details", "remarks", "memo"]

/-- Resolved amount column index. -/
def amtIdx (df : RawDF) : Option ℕ :=
  findColIdx (normCols df) ["amount", "transaction_amount", "value", "debit",
    "credit", "txn_amount"]

/-- Resolved debit column index. -/
def debitIdx (df : RawDF) : Option ℕ :=
  findColIdx (normCols df) ["debit", "debit_amount", "withdrawal"]

/-- Resolved credit column index. -/
def creditIdx (df : RawDF) : Option ℕ :=
  findColIdx (normCols df) ["credit", "credit_amount", "deposit"]

/-- A row that survived `dropna(subset=['date', 'amount'])`: parsed date,
description, parsed (signed) amount, plus the original raw cells. -/
structure VRow where
  date : ℤ
  desc : String
  amt : ℚ
  raw : List Cell
deriving DecidableEq, Repr

/-- The valid rows of the table under date parser `dp`: rows whose date
cell parses and whose amount cell is accepted by `parse_amount`. -/
def validRowsOf (dp : Cell → Option ℤ) (df : RawDF) : List VRow :=
  match dateIdx df, descIdx df, amtIdx df with
  | some di, some de, some ai =>
    df.rows.filterMap (fun r =>
      match dp (cellAt r di), parse_amount (cellAt r ai) with
      | some d, some a => some ⟨d, descOf (cellAt r de), a, r⟩
      | _, _ => none)
  | _, _, _ => []

/-- Income keywords used by the default-direction branch. -/
def incomeKeywords : List String :=
  ["salary", "credit", "deposit", "refund", "cashback", "interest earned"]

/-- Test `df_clean['description'].str.lower().str.contains(keyword)` over the
income keyword list. -/
def hasIncomeKw (s : String) : Bool :=
  incomeKeywords.any (fun k => strHasSub k (strLower s))

/-- Direction flag of the debit/credit branch:
`pd.notna(df[debit_col]) & (df[debit_col] != 0)`. -/
def debitExpense (dbi : ℕ) (v : VRow) : Bool :=
  (!(cellAt v.raw dbi).isNa) && cellNe0 (cellAt v.raw dbi)

/-- Source `clean_transactions` from `core/data_cleaning.py`. `dp` is the
external `pd.to_datetime(…, errors='coerce')` cell parser. -/
def clean_transactions (dp : Cell → Option ℤ) (df : RawDF) :
    Except CErr (List Tx) :=
  if dfEmpty df then .error .emptyInput
  else if (dateIdx df).isNone then .error .noDateCol
  else if (descIdx df).isNone then .error .noDescCol
  else if (amtIdx df).isNone then .error .noAmountCol
  else
    let valid := validRowsOf dp df
    if valid.isEmpty then .error .noValidRows
    else
      match debitIdx df, creditIdx df with
      | some dbi, some _ =>
        .ok (sortTx (valid.map (fun v =>
          { date := v.date, description := v.desc, amount := |v.amt|,
            is_expense := debitExpense dbi v })))
      | _, _ =>
        let pos := (valid.filter (fun v => decide ((0:ℚ) < v.amt))).length
        let neg := (valid.filter (fun v => decide (v.amt < (0:ℚ)))).length
        if pos < neg then
          .ok (sortTx (valid.map (fun v =>
            { date := v.date, description := v.desc, amount := |v.amt|,
              is_expense := decide (v.amt < (0:ℚ)) })))
        else
          .ok (sortTx (valid.map (fun v =>
            { date := v.date, description := v.desc, amount := |v.amt|,
              is_expense := !(hasIncomeKw v.desc) })))

/-! ## Calendar helpers (ISO week numbers)

`pandas` exposes `date.isocalendar().week`; the underlying civil-calendar
arithmetic is the standard days/civil conversion, on day numbers
relative to 1970-01-01. -/

/-- Day number of the civil date `y-m-d` (proleptic Gregorian). -/
def daysFromCivil (y m d : ℤ) : ℤ :=
  let y' := if m ≤ 2 then y - 1 else y
  let era := y'.fdiv 400
  let yoe := y' - era * 400
  let doy := (153 * (if 2 < m then m - 3 else m + 9) + 2).fdiv 5 + d - 1
  let doe := yoe * 365 + yoe.fdiv 4 - yoe.fdiv 100 + doy
  era * 146097 + doe - 719468

/-- Civil year of day number `z`. -/
def yearOfDay (z : ℤ) : ℤ :=
  let z' := z + 719468
  let era := z'.fdiv 146097
  let doe := z' - era * 146097
  let yoe := (doe - doe.fdiv 1460 + doe.fdiv 36524 - doe.fdiv 146096).fdiv 365
  let y := yoe + era * 400
  let doy := doe - (365 * yoe + yoe.fdiv 4 - yoe.fdiv 100)
  let mp := (5 * doy + 2).fdiv 153
  let m := if mp < 10 then mp + 3 else mp - 9
  if m ≤ 2 then y + 1 else y

/-- ISO-8601 week number of day `z` (`date.isocalendar().week`): the week
number of the Thursday of `z`'s Monday-based week within its civil year. -/
def isoWeek (z : ℤ) : ℤ :=
  let th := z - (z + 3).emod 7 + 3
  let y := yearOfDay th
  (th - daysFromCivil y 1 1).fdiv 7 + 1

/-! ## Labeled transactions (`classify_spending`) -/

/-- A labeled transaction: a `Tx` plus the Classifier's two labels. -/
structure LTx where
  date : ℤ
  description : String
  amount : ℚ
  is_expense : Bool
  category : String
  need_vs_want : String
deriving DecidableEq, Repr

/-- Source `classify_spending`: add `category` and `need_vs_want` columns via
`infer_category`. -/
def classify_spending (l : List Tx) : List LTx :=
  l.map (fun t =>
    let c := infer_category t.description t.is_expense
    { date := t.date, description := t.description, amount := t.amount,
      is_expense := t.is_expense, category := c.1, need_vs_want := c.2 })

/-! ## Shared aggregates over a labeled set -/

/-- Selection `df[df['is_expense']]`. -/
def expensesOf (l : List LTx) : List LTx := l.filter (·.is_expense)

/-- Total `df[~df['is_expense']]['amount'].sum()`. -/
def totalIncome (l : List LTx) : ℚ :=
  ((l.filter (fun t => !t.is_expense)).map (·.amount)).sum

/-- Total `df[df['is_expense']]['amount'].sum()`. -/
def totalExpenses (l : List LTx) : ℚ :=
  ((expensesOf l).map (·.amount)).sum

/-- Total `df[df['need_vs_want'] == 'need']['amount'].sum()`. -/
def totalNeeds (l : List LTx) : ℚ :=
  ((l.filter (fun t => t.need_vs_want == "need")).map (·.amount)).sum

/-- Total `df[df['need_vs_want'] == 'want']['amount'].sum()`. -/
def totalWants (l : List LTx) : ℚ :=
  ((l.filter (fun t => t.need_vs_want == "want")).map (·.amount)).sum

/-- Pandas `df['date'].min()` (0 on an empty set, which no caller reaches). -/
def minDate (l : List LTx) : ℤ :=
  match l with
  | [] => 0
  | t :: ts => ts.foldl (fun m u => min m u.date) t.date

/-- Pandas `df['date'].max()` (0 on an empty set, which no caller reaches). -/
def maxDate (l : List LTx) : ℤ :=
  match l with
  | [] => 0
  | t :: ts => ts.foldl (fun m u => max m u.date) t.date

/-- Day span `(df['date'].max() - df['date'].min()).days`. -/
def daysRange (l : List LTx) : ℤ := maxDate l - minDate l

/-- Distinct categories among the expense rows, in first-seen order. -/
def catNames (l : List LTx) : List String :=
  ((expensesOf l).map (·.category)).dedup

/-- Total expense amount of one category. -/
def catTotal (l : List LTx) (c : String) : ℚ :=
  (((expensesOf l).filter (fun t => t.category == c)).map (·.amount)).sum

/-! ## `core/budget_planner.py` -/

/-- Insert into a list of `(name, amount)` pairs kept descending by amount
(stable; `sort_values('amount', ascending=False)`). -/
def insertDescQ (x : String × ℚ) : List (String × ℚ) → List (String × ℚ)
  | [] => [x]
  | y :: ys => if x.2 ≤ y.2 then y :: insertDescQ x ys else x :: y :: ys

/-- Descending-by-amount insertion sort on `(name, amount)` pairs. -/
def sortDescQ : List (String × ℚ) → List (String × ℚ)
  | [] => []
  | x :: xs => insertDescQ x (sortDescQ xs)

/-- Insert into a list of `(week_start, total)` pairs kept ascending by
week start (`sort_values('week_start')`). -/
def insertAscW (x : ℤ × ℚ) : List (ℤ × ℚ) → List (ℤ × ℚ)
  | [] => [x]
  | y :: ys => if y.1 ≤ x.1 then y :: insertAscW x ys else x :: y :: ys

/-- Ascending-by-week insertion sort. -/
def sortAscW : List (ℤ × ℚ) → List (ℤ × ℚ)
  | [] => []
  | x :: xs => insertAscW x (sortAscW xs)

/-- The six numeric summary fields of the budget plan. -/
structure Summary where
  total_income : ℚ
  total_expenses : ℚ
  total_needs : ℚ
  total_wants : ℚ
  savings_potential : ℚ
  suggested_weekly_budget : ℚ
deriving DecidableEq, Repr

/-- Budget Aggregator output (the `flags` strings are presentation text
and are not modelled). -/
structure Budget where
  summary : Summary
  categories : List (String × ℚ)
  weekly_series : List (ℤ × ℚ)
deriving DecidableEq, Repr

/-- Python `max(1, days_range / 7)` (float division in the source). -/
def numWeeks (l : List LTx) : ℚ := max 1 ((daysRange l : ℚ) / 7)

/-- Unsorted per-category expense totals. -/
def catPairs (l : List LTx) : List (String × ℚ) :=
  (catNames l).map (fun c => (c, catTotal l c))

/-- Distinct week starts of the expense rows, in first-seen order. -/
def weekStartsOf (l : List LTx) : List ℤ :=
  ((expensesOf l).map (fun t => weekStart t.date)).dedup

/-- Expense total of one week bucket. -/
def weekTotal (l : List LTx) (w : ℤ) : ℚ :=
  (((expensesOf l).filter (fun t => weekStart t.date == w)).map (·.amount)).sum

/-- Source `generate_budget_plan` from `core/budget_planner.py` (summary,
category breakdown, weekly series; fails on an empty labeled set). -/
def generate_budget_plan (l : List LTx) : Except CErr Budget :=
  if l.isEmpty then .error .emptyInput
  else
    .ok
      { summary :=
          { total_income := round2 (totalIncome l)
            total_expenses := round2 (totalExpenses l)
            total_needs := round2 (totalNeeds l)
            total_wants := round2 (totalWants l)
            savings_potential := round2 (totalIncome l - totalExpenses l)
            suggested_weekly_budget := round2 (totalExpenses l / numWeeks l) }
        categories := (sortDescQ (catPairs l)).map (fun p => (p.1, round2 p.2))
        weekly_series :=
          (sortAscW ((weekStartsOf l).map (fun w => (w, weekTotal l w)))).map
            (fun p => (p.1, round2 p.2)) }

/-! ## `core/advanced_features.py`: `predict_next_month` -/

/-- Result of the 30-day prediction module. -/
inductive Prediction where
  | empty : Prediction
  | needData : Prediction
  | result (predicted_monthly_expenses daily_average : ℚ)
      (category_predictions : List (String × ℚ)) (confidence : String) : Prediction
deriving DecidableEq, Repr

/-- Source `predict_next_month`: `{}` on empty input, a "need more data" payload
below a 7-day span, otherwise the 30-day linear projection. -/
def predict_next_month (l : List LTx) : Prediction :=
  if l.isEmpty then .empty
  else
    let range := daysRange l
    if range < 7 then .needData
    else
      let daily := totalExpenses l / ((max range 1 : ℤ) : ℚ)
      .result (round2 (daily * 30)) (round2 daily)
        ((catNames l).map (fun c => (c, round2 (catTotal l c / (range : ℚ) * 30))))
        (if 30 < range then "Medium" else "Low")

/-! ## `core/advanced_features.py`: `financial_health_score` -/

/-- Mean of a list of rationals (`pandas .mean()`; 0 on an empty list,
which every caller guards). -/
def meanQ (xs : List ℚ) : ℚ := xs.sum / (xs.length : ℚ)

/-- Sample variance, `ddof = 1` (`pandas .std() ** 2`); the guarded
callers only read it for lists of length ≥ 2. -/
def sampleVarQ (xs : List ℚ) : ℚ :=
  ((xs.map (fun x => (x - meanQ xs) ^ 2)).sum) / ((xs.length : ℚ) - 1)

/-- Distinct ISO week numbers of the expense rows
(`expenses['date'].dt.isocalendar().week`), in first-seen order. -/
def weeksOfH (l : List LTx) : List ℤ :=
  ((expensesOf l).map (fun t => isoWeek t.date)).dedup

/-- Weekly expense totals grouped by ISO week number
(`expenses.groupby('week')['amount'].sum()`). -/
def weeklySumsH (l : List LTx) : List ℚ :=
  (weeksOfH l).map (fun w =>
    (((expensesOf l).filter (fun t => isoWeek t.date == w)).map (·.amount)).sum)

/-- Mean of the weekly totals. -/
def wMean (l : List LTx) : ℚ := meanQ (weeklySumsH l)

/-- Sample variance of the weekly totals. -/
def wVar (l : List LTx) : ℚ := sampleVarQ (weeklySumsH l)

/-- Weekly coefficient of variation `std / mean` (real-valued because of
the square root). -/
noncomputable def wCv (l : List LTx) : ℝ :=
  Real.sqrt ((wVar l : ℚ) : ℝ) / ((wMean l : ℚ) : ℝ)

/-- Factor 1 (savings rate, ≤ 30 points). -/
def savingsFactor (l : List LTx) : ℚ :=
  if 0 < totalIncome l then
    let sr := (totalIncome l - totalExpenses l) / totalIncome l * 100
    if 20 ≤ sr then 30 else if 10 ≤ sr then 20 else if 0 ≤ sr then 10 else 0
  else 0

/-- Factor 2 (wants control, ≤ 25 points). -/
def wantsFactor (l : List LTx) : ℚ :=
  if 0 < totalExpenses l then
    let wr := totalWants l / totalExpenses l * 100
    if wr ≤ 30 then 25 else if wr ≤ 50 then 15 else 5
  else 0

open Classical in
/-- Factor 3 (spending consistency, ≤ 20 points): only with more than 7
expense rows and a positive weekly mean; a single week bucket makes the
sample std `NaN`, whose comparisons are all false (0 points). -/
noncomputable def consistencyFactor (l : List LTx) : ℚ :=
  if (expensesOf l).length ≤ 7 then 0
  else if ¬(0 < wMean l) then 0
  else if (weeklySumsH l).length < 2 then 0
  else if wCv l < 3/10 then 20
  else if wCv l < 6/10 then 10
  else 0

/-- Quotient `total_expenses / max(1, days_range / 30)`. -/
def monthlyExpenses (l : List LTx) : ℚ :=
  totalExpenses l / max 1 ((daysRange l : ℚ) / 30)

/-- Factor 4 (emergency buffer, ≤ 25 points). When `monthly_expenses` is 0
the float quotient is `±inf` or `NaN`: `+inf` lands in the ≥ 3 branch,
`-inf` and `NaN` fail both comparisons — exactly the split below. -/
def bufferFactor (l : List LTx) : ℚ :=
  if monthlyExpenses l = 0 then
    if 0 < totalIncome l - totalExpenses l then 25 else 5
  else
    let b := (totalIncome l - totalExpenses l) / monthlyExpenses l
    if 3 ≤ b then 25 else if 1 ≤ b then 15 else 5

/-- Health-score payload (`factors`/`emoji` presentation strings are not
modelled; the empty-input payload carries score 0 and no rating, modelled
as an empty rating). -/
structure Health where
  score : ℚ
  rating : String
deriving DecidableEq, Repr

/-- Source `financial_health_score` from `core/advanced_features.py`. -/
noncomputable def financial_health_score (l : List LTx) : Health :=
  if l.isEmpty then ⟨0, ""⟩
  else
    let s := savingsFactor l + wantsFactor l + consistencyFactor l + bufferFactor l
    ⟨s, if 80 ≤ s then "Excellent" else if 60 ≤ s then "Good"
        else if 40 ≤ s then "Fair" else "Needs Improvement"⟩

/-! ## `core/dynamic_features.py`: `calculate_money_habits_score` -/

/-- Distinct dates of the expense rows (`dt.date` groups / `nunique`). -/
def dayListH (l : List LTx) : List ℤ :=
  ((expensesOf l).map (·.date)).dedup

/-- Daily expense totals grouped by date. -/
def dailySumsH (l : List LTx) : List ℚ :=
  (dayListH l).map (fun d =>
    (((expensesOf l).filter (fun t => t.date == d)).map (·.amount)).sum)

/-- Mean of the daily totals. -/
def dMean (l : List LTx) : ℚ := meanQ (dailySumsH l)

/-- Sample variance of the daily totals. -/
def dVar (l : List LTx) : ℚ := sampleVarQ (dailySumsH l)

open Classical in
/-- Sub-score 1, consistency (0–20): `max(0, 20 - cv*10)` with
`cv = std/mean` of the daily totals, `cv = 1` when the mean is not
positive, and fewer than 7 expense rows scoring a flat 10. One spending
day makes the std `NaN` and `max(0, 20 - NaN*10)` evaluates to 0. -/
noncomputable def consistency_score (l : List LTx) : ℝ :=
  if (expensesOf l).length < 7 then 10
  else if ¬(0 < dMean l) then 10
  else if (dayListH l).length < 2 then 0
  else max 0 (20 - (Real.sqrt ((dVar l : ℚ) : ℝ) / ((dMean l : ℚ) : ℝ)) * 10)

/-- Day count `(df['date'].max() - df['date'].min()).days + 1`. -/
def drH (l : List LTx) : ℤ := daysRange l + 1

/-- Expense transactions per day of span. -/
def txnPerDay (l : List LTx) : ℚ :=
  if 0 < drH l then ((expensesOf l).length : ℚ) / ((drH l : ℤ) : ℚ) else 0

/-- Sub-score 2, mindfulness (0–20): penalizes more than 1.5 expense
transactions per day. -/
def mindfulness_score (l : List LTx) : ℚ :=
  if txnPerDay l ≤ 3/2 then 20 else max 0 (20 - (txnPerDay l - 3/2) * 5)

/-- Sub-score 3, planning (0–20): share of no-spend days, times 20. -/
def planning_score (l : List LTx) : ℚ :=
  (if 0 < drH l then (((drH l : ℤ) : ℚ) - ((dayListH l).length : ℚ)) / ((drH l : ℤ) : ℚ)
   else 0) * 20

/-- Pandas `.median()`: middle element of the sorted values, or the mean
of the two middle elements (`none` on an empty series, where pandas
yields `NaN`). -/
def medianQ (xs : List ℚ) : Option ℚ :=
  let s := sortAscQ xs
  let n := s.length
  if n = 0 then none
  else if n % 2 = 1 then some (s.getD (n / 2) 0)
  else some ((s.getD (n / 2 - 1) 0 + s.getD (n / 2) 0) / 2)

/-- Sub-score 4, impulse control (0–20): two points off per transaction
above 3× the median (an empty series has median `NaN`, and `amount > NaN`
is false, so nothing counts as large). -/
def impulse_score (l : List LTx) : ℚ :=
  match medianQ ((expensesOf l).map (·.amount)) with
  | none => 20
  | some m =>
    max 0 (20 -
      (((expensesOf l).filter (fun t => decide (3 * m < t.amount))).length : ℚ) * 2)

/-- Sub-score 5, savings discipline: `min(20, savings_rate)`, 0 without
income. The source has no lower cap. -/
def savings_discipline_score (l : List LTx) : ℚ :=
  if 0 < totalIncome l then
    min 20 ((totalIncome l - totalExpenses l) / totalIncome l * 100)
  else 0

/-- Habits total: sum of the five sub-scores. -/
noncomputable def habits_total (l : List LTx) : ℝ :=
  consistency_score l +
    ((mindfulness_score l + planning_score l + impulse_score l +
      savings_discipline_score l : ℚ) : ℝ)

open Classical in
/-- Letter grade from the (unrounded) habits total. -/
noncomputable def habits_grade (l : List LTx) : String :=
  if 90 ≤ habits_total l then "A+"
  else if 80 ≤ habits_total l then "A"
  else if 70 ≤ habits_total l then "B"
  else if 60 ≤ habits_total l then "C"
  else "D"

/-- Source `calculate_money_habits_score` payload (the JSON rounds the totals to
one decimal for display; the unrounded values are modelled). -/
structure Habits where
  total_score : ℝ
  consistency : ℝ
  mindfulness : ℚ
  planning : ℚ
  impulse_control : ℚ
  savings_discipline : ℚ
  grade : String

/-- Source `calculate_money_habits_score` from `core/dynamic_features.py`. -/
noncomputable def calculate_money_habits_score (l : List LTx) : Habits :=
  { total_score := habits_total l
    consistency := consistency_score l
    mindfulness := mindfulness_score l
    planning := planning_score l
    impulse_control := impulse_score l
    savings_discipline := savings_discipline_score l
    grade := habits_grade l }

/-! ## Helper lemmas -/

theorem mem_insertTx (t x : Tx) (l : List Tx) :
    t ∈ insertTx x l ↔ t = x ∨ t ∈ l := by
  induction l with
  | nil => simp [insertTx]
  | cons y ys ih =>
    simp only [insertTx]
    split
    · rw [List.mem_cons, ih, List.mem_cons]
      tauto
    · simp only [List.mem_cons]

theorem mem_sortTx (t : Tx) (l : List Tx) : t ∈ sortTx l ↔ t ∈ l := by
  induction l with
  | nil => simp [sortTx]
  | cons x xs ih => simp [sortTx, mem_insertTx, ih]

theorem sum_map_insertDescQ (f : String × ℚ → ℚ) (x : String × ℚ)
    (l : List (String × ℚ)) :
    ((insertDescQ x l).map f).sum = f x + (l.map f).sum := by
  induction l with
  | nil => simp [insertDescQ]
  | cons y ys ih =>
    simp only [insertDescQ]
    split
    · simp [ih]; ring
    · simp

theorem sum_map_sortDescQ (f : String × ℚ → ℚ) (l : List (String × ℚ)) :
    ((sortDescQ l).map f).sum = (l.map f).sum := by
  induction l with
  | nil => rfl
  | cons x xs ih => simp [sortDescQ, sum_map_insertDescQ, ih]

theorem length_insertDescQ (x : String × ℚ) (l : List (String × ℚ)) :
    (insertDescQ x l).length = l.length + 1 := by
  induction l with
  | nil => rfl
  | cons y ys ih =>
    simp only [insertDescQ]
    split
    · simp [ih]
    · simp

theorem length_sortDescQ (l : List (String × ℚ)) :
    (sortDescQ l).length = l.length := by
  induction l with
  | nil => rfl
  | cons x xs ih => simp [sortDescQ, length_insertDescQ, ih]

theorem abs_rhe_sub (q : ℚ) : |(rhe q : ℚ) - q| ≤ 1/2 := by
  simp only [rhe]
  have h0 : (0 : ℚ) ≤ q - (⌊q⌋ : ℚ) := by
    have := Int.floor_le q
    linarith
  have h1 : q - (⌊q⌋ : ℚ) < 1 := by
    have := Int.lt_floor_add_one q
    linarith
  split
  · rw [abs_le]; constructor <;> linarith
  · split
    · rw [abs_le]; push_cast; constructor <;> linarith
    · split
      · rw [abs_le]; constructor <;> linarith
      · rw [abs_le]; push_cast; constructor <;> linarith

theorem abs_round2_sub (q : ℚ) : |round2 q - q| ≤ 1/200 := by
  have h := abs_rhe_sub (q * 100)
  unfold round2
  rw [show (rhe (q * 100) : ℚ) / 100 - q = ((rhe (q * 100) : ℚ) - q * 100) / 100 by ring,
    abs_div, abs_of_pos (show (0:ℚ) < 100 by norm_num)]
  linarith

theorem abs_sum_map_round2_sub {α : Type} (f : α → ℚ) (l : List α) :
    |(l.map (fun a => round2 (f a))).sum - (l.map f).sum| ≤ (l.length : ℚ) / 200 := by
  induction l with
  | nil => simp
  | cons a t ih =>
    simp only [List.map_cons, List.sum_cons, List.length_cons]
    have h1 := abs_round2_sub (f a)
    calc |round2 (f a) + (t.map (fun a => round2 (f a))).sum - (f a + (t.map f).sum)|
        = |(round2 (f a) - f a) + ((t.map (fun a => round2 (f a))).sum - (t.map f).sum)| := by
          ring_nf
      _ ≤ |round2 (f a) - f a| + |(t.map (fun a => round2 (f a))).sum - (t.map f).sum| :=
          abs_add _ _
      _ ≤ 1/200 + (t.length : ℚ) / 200 := by linarith
      _ = ((t.length : ℚ) + 1) / 200 := by ring
      _ = (((t.length : ℕ) + 1 : ℕ) : ℚ) / 200 := by push_cast; ring

theorem sum_map_filter_split {α : Type} (p : α → Bool) (f : α → ℚ) (l : List α) :
    ((l.filter p).map f).sum + ((l.filter (fun a => !p a)).map f).sum
      = (l.map f).sum := by
  induction l with
  | nil => simp
  | cons a t ih =>
    by_cases h : p a
    · simp [List.filter_cons, h, ih.symm]; ring
    · simp [List.filter_cons, h, ih.symm]; ring

theorem sum_fiber_keys {α κ : Type} [DecidableEq κ] (k : α → κ) (f : α → ℚ) :
    ∀ (cs : List κ), cs.Nodup → ∀ (l : List α), (∀ a ∈ l, k a ∈ cs) →
      (cs.map (fun c => ((l.filter (fun a => k a == c)).map f).sum)).sum
        = (l.map f).sum := by
  intro cs
  induction cs with
  | nil =>
    intro _ l hcov
    cases l with
    | nil => simp
    | cons a t => exact absurd (hcov a (by simp)) (by simp)
  | cons c cs ih =>
    intro hnd l hcov
    have hc : c ∉ cs := (List.nodup_cons.mp hnd).1
    have hnd' : cs.Nodup := (List.nodup_cons.mp hnd).2
    simp only [List.map_cons, List.sum_cons]
    have hsplit := sum_map_filter_split (fun a => k a == c) f l
    have hrest : ∀ c' ∈ cs,
        ((l.filter (fun a => k a == c')).map f).sum
          = (((l.filter (fun a => !(k a == c))).filter (fun a => k a == c')).map f).sum := by
      intro c' hc'
      have hne : c' ≠ c := by rintro rfl; exact hc hc'
      have hff : (l.filter (fun a => !(k a == c))).filter (fun a => k a == c')
          = l.filter (fun a => k a == c') := by
        rw [List.filter_filter]
        apply List.filter_congr
        intro a _
        by_cases hk : k a = c'
        · simp [hk, hne]
        · simp [hk]
      rw [hff]
    have hmapeq :
        (cs.map (fun c' => ((l.filter (fun a => k a == c')).map f).sum))
          = (cs.map (fun c' =>
              (((l.filter (fun a => !(k a == c))).filter (fun a => k a == c')).map f).sum)) := by
      apply List.map_congr_left
      intro c' hc'
      exact hrest c' hc'
    rw [hmapeq, ih hnd' (l.filter (fun a => !(k a == c)))
      (by
        intro a ha
        have hmem := List.mem_of_mem_filter ha
        have hka := hcov a hmem
        have hne : ¬(k a == c) = true := by
          have := List.of_mem_filter ha
          simpa using this
        rcases List.mem_cons.mp hka with h | h
        · exact absurd (by simp [h]) hne
        · exact h)]
    linarith [hsplit]

theorem sum_fiber_dedup {α κ : Type} [DecidableEq κ] (k : α → κ) (f : α → ℚ)
    (l : List α) :
    (((l.map k).dedup).map (fun c => ((l.filter (fun a => k a == c)).map f).sum)).sum
      = (l.map f).sum := by
  apply sum_fiber_keys k f _ (List.nodup_dedup _)
  intro a ha
  exact List.mem_dedup.mpr (List.mem_map_of_mem k ha)

theorem foldl_min_le (ts : List LTx) : ∀ (a : ℤ),
    ts.foldl (fun m u => min m u.date) a ≤ a := by
  induction ts with
  | nil => intro a; simp
  | cons t ts ih =>
    intro a
    calc (t :: ts).foldl (fun m u => min m u.date) a
        = ts.foldl (fun m u => min m u.date) (min a t.date) := rfl
      _ ≤ min a t.date := ih _
      _ ≤ a := min_le_left _ _

theorem le_foldl_max (ts : List LTx) : ∀ (a : ℤ),
    a ≤ ts.foldl (fun m u => max m u.date) a := by
  induction ts with
  | nil => intro a; simp
  | cons t ts ih =>
    intro a
    calc a ≤ max a t.date := le_max_left _ _
      _ ≤ ts.foldl (fun m u => max m u.date) (max a t.date) := ih _
      _ = (t :: ts).foldl (fun m u => max m u.date) a := rfl

theorem minDate_le_maxDate (l : List LTx) (h : l ≠ []) :
    minDate l ≤ maxDate l := by
  cases l with
  | nil => exact absurd rfl h
  | cons t ts =>
    calc minDate (t :: ts) ≤ t.date := foldl_min_le ts t.date
      _ ≤ maxDate (t :: ts) := le_foldl_max ts t.date

/-! ## Concrete inputs used by witnesses and counterexamples -/

/-- Date parser used on concrete inputs: an integral numeric cell is the
day number, everything else is unparsable. -/
def dpNum : Cell → Option ℤ
  | .num q => if q.den = 1 then some q.num else none
  | _ => none

/-- A date parser that parses nothing. -/
def dpNone : Cell → Option ℤ := fun _ => none

/-- A table with one valid row whose amount is exactly zero. -/
def zeroDf : RawDF :=
  ⟨["date", "description", "amount"], [[.num 1, .str "zero", .num 0]]⟩

/-- A table with one valid row with a negative amount. -/
def wDf : RawDF :=
  ⟨["date", "description", "amount"], [[.num 3, .str "shop", .num (-7)]]⟩

/-- A table whose single row carries a parenthesized amount string. -/
def parenDf : RawDF :=
  ⟨["date", "description", "amount"], [[.num 5, .str "txn", .str "(1,234.50)"]]⟩

/-- A table with no columns and no rows at all. -/
def emptyDf : RawDF := ⟨[], []⟩

/-! ## C3 -/

/-- C3: the Classifier (`infer_category`) is a pure, deterministic
function of (description, is_expense) — two calls with the same inputs
agree — and every non-expense row maps to `('income', 'income')`. -/
theorem c3_classifier_deterministic_and_income :
    (∀ (d : String) (e : Bool), infer_category d e = infer_category d e) ∧
    (∀ d : String, infer_category d false = ("income", "income")) :=
  ⟨fun _ _ => rfl, fun _ => rfl⟩

/-! ## C9 -/

unseal Rat.add Rat.mul Rat.inv Rat.sub Rat.ofScientific in
/-- C9: `parse_amount` reads the string `"(1,234.50)"` as `-1234.50`
(commas and currency symbols stripped, parentheses as a negative sign),
and after direction inference the Normalizer stores the positive
magnitude `1234.50` (here as an expense, negatives being the majority
sign). -/
theorem c9_paren_amount_scenario :
    parse_amount (.str "(1,234.50)") = some (-1234.5 : ℚ) ∧
    clean_transactions dpNum parenDf
      = .ok [{ date := 5, description := "txn", amount := (1234.5 : ℚ),
               is_expense := true }] := by
  constructor
  · decide
  · decide

/-! ## C1 -/

/-- C1 (amended): every row of a cleaned TransactionSet has amount ≥ 0 —
the absolute value of a successfully parsed raw amount — and stems from a
row whose date and amount both parsed; rows with amount exactly 0 are
*not* dropped, so strict positivity fails (see the counterexample). -/
theorem c1_cleaned_rows_nonneg_and_parsed (dp : Cell → Option ℤ) (df : RawDF)
    (out : List Tx) (h : clean_transactions dp df = .ok out) :
    ∀ t ∈ out, 0 ≤ t.amount ∧ ∃ v ∈ validRowsOf dp df,
      t.date = v.date ∧ t.description = v.desc ∧ t.amount = |v.amt| := by
  intro t ht
  simp only [clean_transactions] at h
  split at h
  · cases h
  split at h
  · cases h
  split at h
  · cases h
  split at h
  · cases h
  split at h
  · cases h
  split at h
  · -- debit and credit columns both resolved
    cases h
    rw [mem_sortTx] at ht
    obtain ⟨v, hv, rfl⟩ := List.mem_map.mp ht
    exact ⟨abs_nonneg _, v, hv, rfl, rfl, rfl⟩
  · -- direction inferred from sign or keywords
    split at h
    · cases h
      rw [mem_sortTx] at ht
      obtain ⟨v, hv, rfl⟩ := List.mem_map.mp ht
      exact ⟨abs_nonneg _, v, hv, rfl, rfl, rfl⟩
    · cases h
      rw [mem_sortTx] at ht
      obtain ⟨v, hv, rfl⟩ := List.mem_map.mp ht
      exact ⟨abs_nonneg _, v, hv, rfl, rfl, rfl⟩

unseal Rat.add Rat.mul Rat.inv Rat.sub Rat.ofScientific in
/-- C1 counterexample: a row whose amount parses to exactly 0 survives
cleaning with stored amount 0, refuting `amount > 0` for all cleaned
rows. -/
theorem c1_zero_amount_survives :
    clean_transactions dpNum zeroDf
      = .ok [{ date := 1, description := "zero", amount := 0, is_expense := true }] ∧
    ¬(0 < ({ date := 1, description := "zero", amount := 0,
             is_expense := true } : Tx).amount) := by
  exact ⟨by decide, by norm_num⟩

unseal Rat.add Rat.mul Rat.inv Rat.sub Rat.ofScientific in
/-- C1 witness: the amended theorem applied to a concrete one-row table. -/
theorem c1_witness :
    0 ≤ ({ date := 3, description := "shop", amount := 7, is_expense := true } : Tx).amount ∧
    ∃ v ∈ validRowsOf dpNum wDf,
      ({ date := 3, description := "shop", amount := 7, is_expense := true } : Tx).date = v.date ∧
      ({ date := 3, description := "shop", amount := 7, is_expense := true } : Tx).description = v.desc ∧
      ({ date := 3, description := "shop", amount := 7, is_expense := true } : Tx).amount = |v.amt| :=
  c1_cleaned_rows_nonneg_and_parsed dpNum wDf
    [{ date := 3, description := "shop", amount := 7, is_expense := true }]
    (by decide) _ (by simp)

/-! ## C2 -/

/-- C2: for every non-empty labeled TransactionSet, the sum of the
per-category amounts in the Budget Aggregator's `categories` list equals
the `total_expenses` field of its summary within rounding tolerance —
each listed amount and the total are rounded to 2 decimals, so the two
sides differ by at most `(n+1)·0.005` for `n` listed categories; before
rounding the identity is exact. -/
theorem c2_category_sum_matches_total (l : List LTx) (h : l ≠ []) :
    ∃ b, generate_budget_plan l = .ok b ∧
      |(b.categories.map Prod.snd).sum - b.summary.total_expenses|
        ≤ ((b.categories.length : ℚ) + 1) / 200 := by
  have hne : l.isEmpty = false := by
    cases l with
    | nil => exact absurd rfl h
    | cons a t => rfl
  unfold generate_budget_plan
  rw [if_neg (by simp [hne])]
  refine ⟨_, rfl, ?_⟩
  simp only [List.map_map]
  set pairs := catPairs l with hpairs
  have hsum1 : ((sortDescQ pairs).map (Prod.snd ∘ fun p => (p.1, round2 p.2))).sum
      = (pairs.map (fun p => round2 p.2)).sum := by
    have := sum_map_sortDescQ (fun p => round2 p.2) pairs
    simpa [Function.comp] using this
  have hsum2 : |(pairs.map (fun p => round2 p.2)).sum - (pairs.map Prod.snd).sum|
      ≤ (pairs.length : ℚ) / 200 :=
    abs_sum_map_round2_sub Prod.snd pairs
  have hsum3 : (pairs.map Prod.snd).sum = totalExpenses l := by
    rw [hpairs]
    unfold catPairs totalExpenses
    rw [List.map_map]
    have := sum_fiber_dedup (fun t : LTx => t.category) (fun t : LTx => t.amount)
      (expensesOf l)
    simpa [catNames, catTotal, Function.comp] using this
  have hlen : ((sortDescQ pairs).map (fun p => (p.1, round2 p.2))).length
      = pairs.length := by
    rw [List.length_map, length_sortDescQ]
  have habs : |round2 (totalExpenses l) - totalExpenses l| ≤ 1/200 :=
    abs_round2_sub (totalExpenses l)
  rw [hlen, hsum1]
  calc |(pairs.map (fun p => round2 p.2)).sum - round2 (totalExpenses l)|
      ≤ |(pairs.map (fun p => round2 p.2)).sum - totalExpenses l|
        + |totalExpenses l - round2 (totalExpenses l)| := abs_sub_le _ _ _
    _ ≤ (pairs.length : ℚ) / 200 + 1/200 := by
        rw [abs_sub_comm (totalExpenses l)]
        have h2' : |(pairs.map (fun p => round2 p.2)).sum - totalExpenses l|
            ≤ (pairs.length : ℚ) / 200 := by
          rw [← hsum3]; exact hsum2
        exact add_le_add h2' habs
    _ = ((pairs.length : ℚ) + 1) / 200 := by ring

/-- C2 witness: the theorem applied to a concrete two-row labeled set. -/
theorem c2_witness :
    ∃ b, generate_budget_plan
        [{ date := 0, description := "a", amount := 100, is_expense := true,
           category := "food", need_vs_want := "need" },
         { date := 1, description := "b", amount := 50, is_expense := true,
           category := "rent", need_vs_want := "need" }] = .ok b ∧
      |(b.categories.map Prod.snd).sum - b.summary.total_expenses|
        ≤ ((b.categories.length : ℚ) + 1) / 200 :=
  c2_category_sum_matches_total _ (by simp)

/-! ## C4 -/

/-- C4: when no debit-and-credit column pair is resolved and cleaning
succeeds, the Normalizer assigns direction by majority sign — if negative
raw amounts strictly outnumber positive ones, exactly the negative rows
are expenses; otherwise (ties included) every row defaults to expense
except rows whose description contains an income keyword — and in both
cases the stored amount is the absolute value of the raw amount. -/
theorem c4_majority_sign_direction (dp : Cell → Option ℤ) (df : RawDF)
    (hdc : debitIdx df = none ∨ creditIdx df = none)
    (h1 : dfEmpty df = false)
    (h2 : (dateIdx df).isNone = false)
    (h3 : (descIdx df).isNone = false)
    (h4 : (amtIdx df).isNone = false)
    (h5 : (validRowsOf dp df).isEmpty = false) :
    (((validRowsOf dp df).filter (fun v => decide ((0:ℚ) < v.amt))).length
        < ((validRowsOf dp df).filter (fun v => decide (v.amt < (0:ℚ)))).length →
      clean_transactions dp df = .ok (sortTx ((validRowsOf dp df).map (fun v =>
        { date := v.date, description := v.desc, amount := |v.amt|
          is_expense := decide (v.amt < (0:ℚ)) })))) ∧
    (¬(((validRowsOf dp df).filter (fun v => decide ((0:ℚ) < v.amt))).length
        < ((validRowsOf dp df).filter (fun v => decide (v.amt < (0:ℚ)))).length) →
      clean_transactions dp df = .ok (sortTx ((validRowsOf dp df).map (fun v =>
        { date := v.date, description := v.desc, amount := |v.amt|
          is_expense := !(hasIncomeKw v.desc) })))) := by
  constructor <;> intro hcmp <;>
    (unfold clean_transactions
     rcases hdc with hd | hd
     · simp only [h1, h2, h3, h4, h5, hd, Bool.false_eq_true, if_false]
       simp [hcmp]
     · cases hdeb : debitIdx df <;>
         (simp only [h1, h2, h3, h4, h5, hd, hdeb, Bool.false_eq_true, if_false]
          simp [hcmp]))

/-- A table with two negative-amount rows and one positive income row
(majority sign negative, no debit/credit pair). -/
def c4Df : RawDF :=
  ⟨["Date", "Description", "Amount"],
   [[.num 10, .str "COFFEE SHOP", .num (-5)],
    [.num 11, .str "TEA", .num (-3)],
    [.num 12, .str "Salary credit", .num 100]]⟩

unseal Rat.add Rat.mul Rat.inv Rat.sub Rat.ofScientific in
/-- C4 witness: the theorem applied to a concrete three-row table whose
negative amounts outnumber the positive ones. -/
theorem c4_witness :
    (((validRowsOf dpNum c4Df).filter (fun v => decide ((0:ℚ) < v.amt))).length
        < ((validRowsOf dpNum c4Df).filter (fun v => decide (v.amt < (0:ℚ)))).length →
      clean_transactions dpNum c4Df = .ok (sortTx ((validRowsOf dpNum c4Df).map (fun v =>
        { date := v.date, description := v.desc, amount := |v.amt|
          is_expense := decide (v.amt < (0:ℚ)) })))) ∧
    (¬(((validRowsOf dpNum c4Df).filter (fun v => decide ((0:ℚ) < v.amt))).length
        < ((validRowsOf dpNum c4Df).filter (fun v => decide (v.amt < (0:ℚ)))).length) →
      clean_transactions dpNum c4Df = .ok (sortTx ((validRowsOf dpNum c4Df).map (fun v =>
        { date := v.date, description := v.desc, amount := |v.amt|
          is_expense := !(hasIncomeKw v.desc) })))) :=
  c4_majority_sign_direction dpNum c4Df (Or.inl (by decide)) (by decide) (by decide)
    (by decide) (by decide) (by decide)

/-! ## C5 -/

/-- C5 (amended): for a **non-empty** input the Normalizer fails with a
`SchemaError` exactly when the date, description, or amount column cannot
be resolved; it fails with an `EmptyDatasetError` when the input table is
empty (this case wins even when columns are also unresolvable — the
uncorrected claim fails there) or when zero valid rows survive filtering;
the Budget Aggregator fails (with an `EmptyDatasetError`) exactly on an
empty labeled set; in every other case both operations return a result. -/
theorem c5_error_taxonomy (dp : Cell → Option ℤ) (df : RawDF) (l : List LTx) :
    ((∃ e, clean_transactions dp df = .error e ∧ errKind e = .schemaErr) ↔
      (dfEmpty df = false ∧
        ((dateIdx df).isNone = true ∨ (descIdx df).isNone = true ∨
          (amtIdx df).isNone = true))) ∧
    ((∃ e, clean_transactions dp df = .error e ∧ errKind e = .emptyDataErr) ↔
      (dfEmpty df = true ∨
        (dfEmpty df = false ∧ (dateIdx df).isNone = false ∧
          (descIdx df).isNone = false ∧ (amtIdx df).isNone = false ∧
          validRowsOf dp df = []))) ∧
    ((∃ out, clean_transactions dp df = .ok out) ↔
      (dfEmpty df = false ∧ (dateIdx df).isNone = false ∧
        (descIdx df).isNone = false ∧ (amtIdx df).isNone = false ∧
        validRowsOf dp df ≠ [])) ∧
    ((∃ e, generate_budget_plan l = .error e ∧ errKind e = .emptyDataErr) ↔
      l = []) ∧
    ((∃ b, generate_budget_plan l = .ok b) ↔ l ≠ []) := by
  have hbudget : (∃ e, generate_budget_plan l = .error e ∧ errKind e = .emptyDataErr)
      ↔ l = [] := by
    cases l with
    | nil => simp [generate_budget_plan, errKind]
    | cons a t => simp [generate_budget_plan]
  have hbudget2 : (∃ b, generate_budget_plan l = .ok b) ↔ l ≠ [] := by
    cases l with
    | nil => simp [generate_budget_plan]
    | cons a t => simp [generate_budget_plan]
  refine ⟨?_, ?_, ?_, hbudget, hbudget2⟩ <;>
    (unfold clean_transactions
     cases hE : dfEmpty df
     · cases hD : (dateIdx df).isNone
       · cases hDe : (descIdx df).isNone
         · cases hA : (amtIdx df).isNone
           · cases hV : (validRowsOf dp df).isEmpty
             · have hVne : validRowsOf dp df ≠ [] := by
                 cases hl : validRowsOf dp df with
                 | nil => rw [hl] at hV; cases hV
                 | cons a t => simp
               cases hdeb : debitIdx df <;> cases hcred : creditIdx df <;>
                 simp [hE, hD, hDe, hA, hV, hVne, errKind, hdeb, hcred] <;>
                   split <;> simp
             · have hVe : validRowsOf dp df = [] := by
                 cases hl : validRowsOf dp df with
                 | nil => rfl
                 | cons a t => rw [hl] at hV; cases hV
               simp [hE, hD, hDe, hA, hV, hVe, errKind]
           · simp [hE, hD, hDe, hA, errKind]
         · simp [hE, hD, hDe, errKind]
       · simp [hE, hD, errKind]
     · simp [hE, errKind])

/-- C5 counterexample: on an empty table with no resolvable columns the
Normalizer's failure is the empty-input `ValueError` — an
`EmptyDatasetError` in the spec taxonomy, not a `SchemaError` — although
the date column cannot be resolved, refuting "SchemaError exactly when a
required column cannot be resolved". -/
theorem c5_empty_input_beats_schema :
    dateIdx emptyDf = none ∧
    clean_transactions dpNone emptyDf = .error .emptyInput ∧
    errKind .emptyInput ≠ .schemaErr :=
  ⟨by decide, by decide, by decide⟩

/-! ## C6 -/

/-- C6: a non-empty labeled set spanning fewer than 7 days makes
`predict_next_month` return the "need more data" payload with no numeric
projection; at 7 days or more it returns a numeric
`predicted_monthly_expenses` equal (up to the 2-decimal display rounding,
hence within 0.005) to `(total expenses / day span) × 30`. -/
theorem c6_prediction_boundary (l : List LTx) (h : l ≠ []) :
    (daysRange l < 7 → predict_next_month l = .needData) ∧
    (7 ≤ daysRange l → ∃ m d cats conf,
      predict_next_month l = .result m d cats conf ∧
      |m - totalExpenses l / (daysRange l : ℚ) * 30| ≤ 1/200) := by
  have hne : l.isEmpty = false := by
    cases l with
    | nil => exact absurd rfl h
    | cons a t => rfl
  constructor
  · intro hlt
    unfold predict_next_month
    rw [if_neg (by simp [hne]), if_pos hlt]
  · intro hge
    unfold predict_next_month
    rw [if_neg (by simp [hne]), if_neg (not_lt.mpr hge)]
    have hmax : max (daysRange l) 1 = daysRange l :=
      max_eq_left (by linarith)
    refine ⟨_, _, _, _, rfl, ?_⟩
    rw [hmax]
    exact abs_round2_sub _

/-- A labeled set spanning 10 days. -/
def c6L : List LTx :=
  [{ date := 0, description := "a", amount := 10, is_expense := true,
     category := "other", need_vs_want := "want" },
   { date := 10, description := "salary", amount := 100, is_expense := false,
     category := "income", need_vs_want := "income" }]

/-- C6 witness: the theorem applied to a concrete 10-day labeled set. -/
theorem c6_witness :
    (daysRange c6L < 7 → predict_next_month c6L = .needData) ∧
    (7 ≤ daysRange c6L → ∃ m d cats conf,
      predict_next_month c6L = .result m d cats conf ∧
      |m - totalExpenses c6L / (daysRange c6L : ℚ) * 30| ≤ 1/200) :=
  c6_prediction_boundary c6L (by decide)

/-! ## C10 -/

/-- C10: on every non-empty labeled set the health score is at least 5,
because the emergency-buffer factor contributes at least 5 points in all
of its branches and the other three factors never subtract. -/
theorem c10_health_score_at_least_five (l : List LTx) (h : l ≠ []) :
    5 ≤ (financial_health_score l).score := by
  have hne : l.isEmpty = false := by
    cases l with
    | nil => exact absurd rfl h
    | cons a t => rfl
  have h1 : 0 ≤ savingsFactor l := by
    unfold savingsFactor
    repeat' split <;> norm_num
  have h2 : 0 ≤ wantsFactor l := by
    unfold wantsFactor
    repeat' split <;> norm_num
  have h3 : 0 ≤ consistencyFactor l := by
    unfold consistencyFactor
    repeat' split <;> norm_num
  have h4 : 5 ≤ bufferFactor l := by
    unfold bufferFactor
    repeat' split <;> norm_num
  unfold financial_health_score
  rw [if_neg (by simp [hne])]
  show 5 ≤ savingsFactor l + wantsFactor l + consistencyFactor l + bufferFactor l
  linarith

/-- C10 witness: the theorem applied to a concrete one-row labeled set. -/
theorem c10_witness :
    5 ≤ (financial_health_score
      [{ date := 0, description := "a", amount := 10, is_expense := true,
         category := "other", need_vs_want := "want" }]).score :=
  c10_health_score_at_least_five _ (by decide)

/-! ## C7 -/

/-- C7: for any labeled set with more than 7 expense rows, savings rate
exactly 20% of income, wants ratio 25% of expenses, weekly coefficient of
variation exactly 0.2 (stated as: sample variance equals `(mean/5)²`, at
least two week buckets, positive mean), and an emergency buffer of 4
months, the health score is 30+25+20+25 = 100 with rating "Excellent". -/
theorem c7_perfect_health_score (l : List LTx)
    (h1 : 7 < (expensesOf l).length)
    (h2 : 0 < totalIncome l)
    (h3 : (totalIncome l - totalExpenses l) / totalIncome l * 100 = 20)
    (h4 : 0 < totalExpenses l)
    (h5 : totalWants l / totalExpenses l * 100 = 25)
    (h6 : 0 < wMean l)
    (h7 : 2 ≤ (weeklySumsH l).length)
    (h8 : wVar l = (wMean l / 5) ^ 2)
    (h9 : (totalIncome l - totalExpenses l) / monthlyExpenses l = 4) :
    (financial_health_score l).score = 100 ∧
    (financial_health_score l).rating = "Excellent" := by
  have hlne : l ≠ [] := by
    intro he
    rw [he] at h1
    simp [expensesOf] at h1
  have hne : l.isEmpty = false := by
    cases l with
    | nil => exact absurd rfl hlne
    | cons a t => rfl
  have hf1 : savingsFactor l = 30 := by
    unfold savingsFactor
    rw [if_pos h2]
    simp only [h3]
    norm_num
  have hf2 : wantsFactor l = 25 := by
    unfold wantsFactor
    rw [if_pos h4]
    simp only [h5]
    norm_num
  have hcv : wCv l = 1/5 := by
    unfold wCv
    rw [h8]
    push_cast
    rw [Real.sqrt_sq (by positivity : (0:ℝ) ≤ (wMean l : ℝ)/5)]
    have hmne : ((wMean l : ℚ) : ℝ) ≠ 0 := by
      have : (0:ℝ) < ((wMean l : ℚ) : ℝ) := by exact_mod_cast h6
      exact ne_of_gt this
    field_simp
    ring
  have hf3 : consistencyFactor l = 20 := by
    unfold consistencyFactor
    rw [if_neg (by omega : ¬((expensesOf l).length ≤ 7))]
    rw [if_neg (not_not_intro h6)]
    rw [if_neg (by omega : ¬((weeklySumsH l).length < 2))]
    rw [if_pos (by rw [hcv]; norm_num)]
  have hf4 : bufferFactor l = 25 := by
    unfold bufferFactor
    have hm : 0 < monthlyExpenses l := by
      unfold monthlyExpenses
      apply div_pos h4
      calc (0:ℚ) < 1 := one_pos
        _ ≤ max 1 ((daysRange l : ℚ) / 30) := le_max_left _ _
    rw [if_neg (ne_of_gt hm)]
    simp only [h9]
    norm_num
  have hscore : financial_health_score l = ⟨100, "Excellent"⟩ := by
    unfold financial_health_score
    rw [if_neg (by simp [hne])]
    simp only [hf1, hf2, hf3, hf4]
    norm_num
  rw [hscore]
  exact ⟨rfl, rfl⟩

/-- An expense row helper for the concrete health-score scenario. -/
def mkE (d : ℤ) (a : ℚ) (w : String) : LTx :=
  { date := d, description := "e", amount := a, is_expense := true,
    category := "other", need_vs_want := w }

/-- A 14-row labeled set realizing savings rate 20%, wants ratio 25%,
weekly CV 0.2 (week totals 400/500/600) and a 4-month buffer
(480-day span, monthly expenses 93.75, savings 375). -/
def c7L : List LTx :=
  [mkE 0 100 "want", mkE 1 100 "need", mkE 2 100 "need", mkE 3 100 "need",
   mkE 4 125 "want", mkE 5 125 "need", mkE 6 125 "need", mkE 7 125 "need",
   mkE 11 150 "want", mkE 12 150 "need", mkE 13 150 "need", mkE 14 150 "need",
   { date := 0, description := "salary", amount := 1000, is_expense := false,
     category := "income", need_vs_want := "income" },
   { date := 480, description := "salary", amount := 875, is_expense := false,
     category := "income", need_vs_want := "income" }]

unseal Rat.add Rat.mul Rat.inv Rat.sub Rat.ofScientific in
/-- C7 witness: the theorem applied to the concrete 14-row scenario set. -/
theorem c7_witness :
    (financial_health_score c7L).score = 100 ∧
    (financial_health_score c7L).rating = "Excellent" :=
  c7_perfect_health_score c7L (by decide) (by decide) (by decide) (by decide)
    (by decide) (by decide) (by decide) (by decide) (by decide)

/-! ## C8 -/

/-- C8 (amended): the habits total is the sum of the five sub-scores,
each of which is at most 20, so the total is at most 100; the letter
grade is mapped ≥90 A+, ≥80 A, ≥70 B, ≥60 C, else D. The total is **not**
bounded below by 0: the savings-discipline sub-score is `min(20, rate)`
with no lower cap, so when expenses far exceed income the total is
negative (see the counterexample). -/
theorem c8_habits_score_bounds (l : List LTx) (_h : l ≠ []) :
    (calculate_money_habits_score l).total_score
        = consistency_score l + ((mindfulness_score l + planning_score l +
            impulse_score l + savings_discipline_score l : ℚ) : ℝ) ∧
    consistency_score l ≤ 20 ∧
    mindfulness_score l ≤ 20 ∧
    planning_score l ≤ 20 ∧
    impulse_score l ≤ 20 ∧
    savings_discipline_score l ≤ 20 ∧
    (calculate_money_habits_score l).total_score ≤ 100 ∧
    (90 ≤ habits_total l → (calculate_money_habits_score l).grade = "A+") ∧
    (80 ≤ habits_total l → habits_total l < 90 →
      (calculate_money_habits_score l).grade = "A") ∧
    (70 ≤ habits_total l → habits_total l < 80 →
      (calculate_money_habits_score l).grade = "B") ∧
    (60 ≤ habits_total l → habits_total l < 70 →
      (calculate_money_habits_score l).grade = "C") ∧
    (habits_total l < 60 → (calculate_money_habits_score l).grade = "D") := by
  have hcons : consistency_score l ≤ 20 := by
    unfold consistency_score
    split
    · norm_num
    split
    · norm_num
    split
    · norm_num
    · rename_i hlen hmean hdays
      have hm : (0:ℝ) ≤ ((dMean l : ℚ) : ℝ) := by
        have := not_not.mp hmean
        have : (0:ℝ) < ((dMean l : ℚ) : ℝ) := by exact_mod_cast this
        linarith
      have ht : 0 ≤ Real.sqrt ((dVar l : ℚ) : ℝ) / ((dMean l : ℚ) : ℝ) * 10 :=
        mul_nonneg (div_nonneg (Real.sqrt_nonneg _) hm) (by norm_num)
      exact max_le (by norm_num) (by linarith)
  have hmind : mindfulness_score l ≤ 20 := by
    unfold mindfulness_score
    split
    · norm_num
    · rename_i htpd
      have h32 : (3:ℚ)/2 < txnPerDay l := lt_of_not_le htpd
      exact max_le (by norm_num) (by linarith)
  have hplan : planning_score l ≤ 20 := by
    unfold planning_score
    split
    · rename_i hdr
      have hdr' : (0:ℚ) < ((drH l : ℤ) : ℚ) := by exact_mod_cast hdr
      have hsd : (0:ℚ) ≤ (((dayListH l).length : ℕ) : ℚ) := by positivity
      have hr : (((drH l : ℤ) : ℚ) - (((dayListH l).length : ℕ) : ℚ))
          / ((drH l : ℤ) : ℚ) ≤ 1 := by
        rw [div_le_one hdr']
        linarith
      nlinarith
    · norm_num
  have haux : ∀ n : ℕ, (20:ℚ) - (n:ℚ) * 2 ≤ 20 := by
    intro n
    have : (0:ℚ) ≤ (n:ℚ) * 2 := by positivity
    linarith
  have himp : impulse_score l ≤ 20 := by
    unfold impulse_score
    split
    · norm_num
    · exact max_le (by norm_num) (haux _)
  have hsav : savings_discipline_score l ≤ 20 := by
    unfold savings_discipline_score
    split
    · exact min_le_left _ _
    · norm_num
  have htot : (calculate_money_habits_score l).total_score
      = consistency_score l + ((mindfulness_score l + planning_score l +
          impulse_score l + savings_discipline_score l : ℚ) : ℝ) := rfl
  have htle : (calculate_money_habits_score l).total_score ≤ 100 := by
    rw [htot]
    push_cast
    have h1' : ((mindfulness_score l : ℚ) : ℝ) ≤ 20 := by exact_mod_cast hmind
    have h2' : ((planning_score l : ℚ) : ℝ) ≤ 20 := by exact_mod_cast hplan
    have h3' : ((impulse_score l : ℚ) : ℝ) ≤ 20 := by exact_mod_cast himp
    have h4' : ((savings_discipline_score l : ℚ) : ℝ) ≤ 20 := by exact_mod_cast hsav
    linarith
  refine ⟨htot, hcons, hmind, hplan, himp, hsav, htle, ?_, ?_, ?_, ?_, ?_⟩ <;>
    (intros
     show habits_grade l = _
     unfold habits_grade)
  · rw [if_pos (by assumption)]
  · rename_i h80 h90
    rw [if_neg (by linarith), if_pos h80]
  · rename_i h70 h80
    rw [if_neg (by linarith), if_neg (by linarith), if_pos h70]
  · rename_i h60 h70
    rw [if_neg (by linarith), if_neg (by linarith), if_neg (by linarith),
      if_pos h60]
  · rename_i h60
    rw [if_neg (by linarith), if_neg (by linarith), if_neg (by linarith),
      if_neg (by linarith)]

/-- A labeled set whose expenses are 1000× its income: the savings
sub-score is `min(20, -99900) = -99900`. -/
def badHabitsL : List LTx :=
  [{ date := 0, description := "pay", amount := 1, is_expense := false,
     category := "income", need_vs_want := "income" },
   { date := 0, description := "shop", amount := 1000, is_expense := true,
     category := "other", need_vs_want := "want" }]

unseal Rat.add Rat.mul Rat.inv Rat.sub Rat.ofScientific in
/-- C8 counterexample: the habits total of `badHabitsL` is negative
(10 + 20 + 0 + 20 - 99900), refuting "total_score between 0 and 100". -/
theorem c8_total_can_be_negative :
    (calculate_money_habits_score badHabitsL).total_score < 0 := by
  have hc : consistency_score badHabitsL = 10 := by
    unfold consistency_score
    rw [if_pos (by decide)]
  have hm : mindfulness_score badHabitsL = 20 := by decide
  have hp : planning_score badHabitsL = 0 := by decide
  have hi : impulse_score badHabitsL = 20 := by decide
  have hs : savings_discipline_score badHabitsL = -99900 := by decide
  show habits_total badHabitsL < 0
  unfold habits_total
  rw [hc, hm, hp, hi, hs]
  norm_num

unseal Rat.add Rat.mul Rat.inv Rat.sub Rat.ofScientific in
/-- C8 witness: the amended theorem applied to a concrete labeled set. -/
theorem c8_witness :
    (calculate_money_habits_score c6L).total_score
        = consistency_score c6L + ((mindfulness_score c6L + planning_score c6L +
            impulse_score c6L + savings_discipline_score c6L : ℚ) : ℝ) ∧
    consistency_score c6L ≤ 20 ∧
    mindfulness_score c6L ≤ 20 ∧
    planning_score c6L ≤ 20 ∧
    impulse_score c6L ≤ 20 ∧
    savings_discipline_score c6L ≤ 20 ∧
    (calculate_money_habits_score c6L).total_score ≤ 100 ∧
    (90 ≤ habits_total c6L → (calculate_money_habits_score c6L).grade = "A+") ∧
    (80 ≤ habits_total c6L → habits_total c6L < 90 →
      (calculate_money_habits_score c6L).grade = "A") ∧
    (70 ≤ habits_total c6L → habits_total c6L < 80 →
      (calculate_money_habits_score c6L).grade = "B") ∧
    (60 ≤ habits_total c6L → habits_total c6L < 70 →
      (calculate_money_habits_score c6L).grade = "C") ∧
    (habits_total c6L < 60 → (calculate_money_habits_score c6L).grade = "D") :=
  c8_habits_score_bounds c6L (by decide)
